import Mathlib

/-!
Shallow embedding of the SKYNET_CC payment-operations core:
`src/core/agent.py` (PaymentStatus, PaymentSignal, PaymentObserver),
`src/simulation/simulator.py` (PaymentSimulator), `src/governance.py`
(GovernanceGuardrails) and `src/adaptive.py` (AdaptivePolicy).

Python floats are modelled as `ℚ`, integer timestamps as whole seconds
(`ℕ`), and every random draw is an explicit oracle argument, so all
behaviours of the randomised code are quantified over.
-/

namespace SkynetCC

/-! ### src/core/agent.py -/

/-- The `PaymentStatus(str, Enum)` members: SUCCESS, FAILURE, PENDING. -/
inductive PaymentStatus where
  | SUCCESS
  | FAILURE
  | PENDING
deriving DecidableEq

/-- The `.value` payload of each enum member. -/
def PaymentStatus.value : PaymentStatus → String
  | .SUCCESS => "success"
  | .FAILURE => "failure"
  | .PENDING => "pending"

/-- The member name, as it appears in `Enum.__str__` output. -/
def PaymentStatus.memberName : PaymentStatus → String
  | .SUCCESS => "SUCCESS"
  | .FAILURE => "FAILURE"
  | .PENDING => "PENDING"

/-- Attribute lookup on the `PaymentStatus` class: only the three defined
members exist; any other attribute access (e.g. `PaymentStatus.FAILED` in
`simulator.py`) raises `AttributeError`, modelled as `none`. -/
def PaymentStatus.attrLookup : String → Option PaymentStatus
  | "SUCCESS" => some .SUCCESS
  | "FAILURE" => some .FAILURE
  | "PENDING" => some .PENDING
  | _ => none

/-- The `status` argument of `PaymentSignal.__init__` is annotated `str`
but is in practice either a plain string or a `PaymentStatus` member. -/
inductive StatusArg where
  | enum (s : PaymentStatus)
  | str (v : String)
deriving DecidableEq

/-- Python `str()` applied to the status argument. For a member of a
`class X(str, Enum)` mixin, CPython's `EnumMeta` installs `Enum.__str__`
on the class (because the class's inherited `__str__` is the member
type's), so `str(PaymentStatus.SUCCESS)` is `"PaymentStatus.SUCCESS"`,
not `"success"`; a plain string is returned unchanged. -/
def StatusArg.pyStr : StatusArg → String
  | .enum s => "PaymentStatus." ++ s.memberName
  | .str v => v

/-- The ten attributes `PaymentSignal.__init__` assigns on `self`. -/
structure PaymentSignal where
  transaction_id : String
  amount : ℚ
  currency : String
  status : String
  latency_ms : ℚ
  error_code : Option String
  timestamp : ℚ
  payment_method : Option String
  processor : Option String
  issuer_bank : Option String
deriving DecidableEq

/-- `PaymentSignal.__init__`: stores the ten named parameters (with
`status` passed through `str()`); the trailing `**kwargs` absorbs any
extra keyword arguments, and the body never reads them, so they are
discarded. `kwargs` is the extra-keyword mapping (names to values). -/
def PaymentSignal.make (transaction_id : String) (amount : ℚ)
    (currency : String) (status : StatusArg) (latency_ms : ℚ)
    (error_code : Option String) (timestamp : ℚ)
    (payment_method processor issuer_bank : Option String)
    (kwargs : List (String × String)) : PaymentSignal :=
  let _ := kwargs
  { transaction_id := transaction_id
    amount := amount
    currency := currency
    status := status.pyStr
    latency_ms := latency_ms
    error_code := error_code
    timestamp := timestamp
    payment_method := payment_method
    processor := processor
    issuer_bank := issuer_bank }

/-- The dict returned by `PaymentObserver.calculate_metrics`. -/
structure Metrics where
  total_volume : ℕ
  success_count : ℕ
  failure_count : ℕ
  success_rate : ℚ
  failure_rate : ℚ
  avg_latency : ℚ
  retry_rate : ℚ
deriving DecidableEq

/-- `PaymentObserver.calculate_metrics` over the retained `self.signals`
list (each `observe` call appends one signal to it). -/
def calculate_metrics (signals : List PaymentSignal) : Metrics :=
  let total := signals.length
  if total = 0 then
    { total_volume := 0, success_count := 0, failure_count := 0
      success_rate := 0, failure_rate := 0, avg_latency := 0
      retry_rate := 0 }
  else
    let success := signals.countP (fun s => s.status == "success")
    let failure := signals.countP (fun s => s.status == "failure")
    { total_volume := total
      success_count := success
      failure_count := failure
      success_rate := (success : ℚ) / (total : ℚ)
      failure_rate := (failure : ℚ) / (total : ℚ)
      avg_latency := (signals.map (fun s => s.latency_ms)).sum / (total : ℚ)
      retry_rate := 0 }

/-- The spec's "count of PENDING" among retained signals, counted the
same way `calculate_metrics` counts "success" and "failure": by the
stored status string. -/
def pendingCount (signals : List PaymentSignal) : ℕ :=
  signals.countP (fun s => s.status == "pending")

/-! ### src/simulation/simulator.py -/

/-- A dict appended by `PaymentSimulator.add_degradation_scenario`. -/
structure DegradationScenario where
  type : String
  affected : String
  start : ℤ
  stop : ℤ
  severity : ℚ
deriving DecidableEq

/-- The simulator state the claims depend on: the registered scenario
list and the running transaction counter (the constructor also fixes the
constant candidate pools, which the oracle draws from). -/
structure PaymentSimulator where
  degradation_scenarios : List DegradationScenario
  transaction_counter : ℕ
deriving DecidableEq

/-- `PaymentSimulator.__init__`: empty scenario list, counter 0. -/
def PaymentSimulator.new : PaymentSimulator :=
  { degradation_scenarios := [], transaction_counter := 0 }

/-- The `self.error_codes` pool fixed by `PaymentSimulator.__init__`. -/
def errorCodes : List String :=
  ["E001_INSUFFICIENT_FUNDS", "E002_CARD_DECLINED", "E003_NETWORK_ERROR",
   "E004_TIMEOUT", "E005_FRAUD_SUSPECTED", "E006_INVALID_CARD"]

/-- `PaymentSimulator.add_degradation_scenario`: appends the scenario
dict with `end = start_after + duration`; no validation is performed. -/
def add_degradation_scenario (sim : PaymentSimulator)
    (scenario_type affected_dimension : String) (start_after duration : ℤ)
    (severity : ℚ) : PaymentSimulator :=
  { sim with degradation_scenarios := sim.degradation_scenarios ++
      [{ type := scenario_type, affected := affected_dimension
         start := start_after, stop := start_after + duration
         severity := severity }] }

/-- Python `int()` on a rational: truncation toward zero. -/
def pyInt (q : ℚ) : ℤ :=
  if 0 ≤ q then ⌊q⌋ else ⌈q⌉

/-- The mutable draft that the scenario loop of `generate_payment`
updates: `success_prob`, `base_latency`, `retry_count`, `error_code`. -/
structure Draft where
  success_prob : ℚ
  base_latency : ℤ
  retry_count : ℕ
  error_code : Option String
deriving DecidableEq

/-- Random draws available to the scenario loop, indexed by scenario
position: `rand i` is the `random.random()` draw and `retryAmt i` the
`random.randint(1, 4)` draw that scenario `i` would consume. -/
structure ScenOracle where
  rand : ℕ → ℚ
  retryAmt : ℕ → ℕ

/-- One iteration of the `for scenario in self.degradation_scenarios`
loop in `generate_payment`: if the window `start <= counter <= end`
contains the counter, apply the branch for the scenario's type. -/
def applyOne (counter : ℕ) (issuer payment_method : String)
    (scenario : DegradationScenario) (rand : ℚ) (retryAmt : ℕ)
    (d : Draft) : Draft :=
  if scenario.start ≤ (counter : ℤ) ∧ (counter : ℤ) ≤ scenario.stop then
    if scenario.type = "issuer_degradation" then
      if scenario.affected = issuer then
        { d with success_prob := d.success_prob * (1 - scenario.severity)
                 base_latency := d.base_latency + pyInt (300 * scenario.severity) }
      else d
    else if scenario.type = "method_fatigue" then
      if scenario.affected = payment_method then
        { d with success_prob := d.success_prob * (1 - scenario.severity) }
      else d
    else if scenario.type = "retry_storm" then
      if rand < scenario.severity then
        { d with retry_count := retryAmt
                 success_prob := d.success_prob * (7/10) }
      else d
    else if scenario.type = "latency_spike" then
      { d with base_latency := d.base_latency + pyInt (1000 * scenario.severity) }
    else if scenario.type = "error_clustering" then
      if rand < scenario.severity then
        { d with error_code := some scenario.affected
                 success_prob := 1/10 }
      else d
    else d
  else d

/-- The whole scenario loop, applying scenarios in list (registration)
order; `i` is the position of the next scenario in the oracle. -/
def applyScenarios (counter : ℕ) (issuer payment_method : String)
    (o : ScenOracle) : List DegradationScenario → ℕ → Draft → Draft
  | [], _, d => d
  | s :: rest, i, d =>
      applyScenarios counter issuer payment_method o rest (i + 1)
        (applyOne counter issuer payment_method s (o.rand i) (o.retryAmt i) d)

/-- All random draws consumed by one `generate_payment` call: the pool
choices, `randint(200, 800)` base latency, the scenario-loop oracle, the
final `random.random()` outcome draw, the `choice(self.error_codes)`
fallback error code, `randint(-100, 100)` noise, `uniform(10, 1000)`
amount rounded to 2 places, currency and merchant-category choices,
`random.random()` risk score, and the `datetime.now()` timestamp. -/
structure GenDraws where
  payment_method : String
  issuer : String
  processor : String
  base_latency : ℤ
  scen : ScenOracle
  outcome : ℚ
  error_choice : String
  noise : ℤ
  amount : ℚ
  currency : String
  merchant_category : String
  risk_score : ℚ
  now : ℚ

/-- `"txn_" + f"{n:06d}"`: zero-pad the counter to six digits. -/
def txnId (n : ℕ) : String :=
  let s := toString n
  "txn_" ++ String.mk (List.replicate (6 - s.length) '0') ++ s

/-- `PaymentSimulator.generate_payment`. Increments the counter, runs
the scenario loop on the draft (base success probability 0.85), then
draws the outcome. The success branch builds a SUCCESS signal. The
failure branch first evaluates `PaymentStatus.FAILED`, an attribute the
enum does not define, so it raises `AttributeError` (modelled as
`Except.error`); the rest of that branch is unreachable but embedded
faithfully. The signal is built by `PaymentSignal.make`, with
`retry_count`, `merchant_category` and `risk_score` passed as extra
keyword arguments that `**kwargs` discards. -/
def generate_payment (sim : PaymentSimulator) (d : GenDraws) :
    Except String (PaymentSignal × PaymentSimulator) :=
  let counter := sim.transaction_counter + 1
  let sim' := { sim with transaction_counter := counter }
  let draft0 : Draft :=
    { success_prob := 85/100, base_latency := d.base_latency
      retry_count := 0, error_code := none }
  let draft := applyScenarios counter d.issuer d.payment_method d.scen
      sim.degradation_scenarios 0 draft0
  let build (status : PaymentStatus) (error_code : Option String) :
      PaymentSignal :=
    let latency : ℤ := draft.base_latency + d.noise
    PaymentSignal.make (txnId counter) d.amount d.currency
      (.enum status) ((max latency 100 : ℤ) : ℚ) error_code d.now
      (some d.payment_method) (some d.processor) (some d.issuer)
      [("retry_count", toString draft.retry_count),
       ("merchant_category", d.merchant_category),
       ("risk_score", toString d.risk_score)]
  if d.outcome < draft.success_prob then
    .ok (build .SUCCESS none, sim')
  else
    match PaymentStatus.attrLookup "FAILED" with
    | none =>
        .error "AttributeError: FAILED is not a member of PaymentStatus"
    | some st =>
        let ec := match draft.error_code with
          | none => some d.error_choice
          | some e => some e
        .ok (build st ec, sim')

/-! ### src/governance.py -/

/-- `GovernanceGuardrails` state. Timestamps are whole seconds; ledger
entries are appended by `allow` itself, so they are at most `now`. -/
structure GovernanceGuardrails where
  max_autonomous_actions_per_hour : ℕ
  high_risk_actions : List String
  action_log : List ℕ
deriving DecidableEq

/-- `GovernanceGuardrails.__init__`. -/
def GovernanceGuardrails.new : GovernanceGuardrails :=
  { max_autonomous_actions_per_hour := 5
    high_risk_actions := ["DISABLE_PAYMENT_METHOD"]
    action_log := [] }

/-- The predicate `(now-a).seconds < 3600` from `allow`. For a
non-negative whole-second timedelta, Python's `.seconds` attribute is
the seconds component after normalisation into days, i.e. the elapsed
seconds modulo 86400 — not the total elapsed seconds. -/
def withinLastHourBug (now a : ℕ) : Bool :=
  (now - a) % 86400 < 3600

/-- `GovernanceGuardrails.allow`, taking `decision.action_type.value` as
a string and the current time; returns the `(approved, reason)` pair and
the updated guardrail state. -/
def allow (g : GovernanceGuardrails) (action_type_value : String)
    (now : ℕ) : (Bool × String) × GovernanceGuardrails :=
  let last_hour := g.action_log.filter (fun a => withinLastHourBug now a)
  if g.max_autonomous_actions_per_hour ≤ last_hour.length then
    ((false, "Rate limit exceeded"), g)
  else if g.high_risk_actions.contains action_type_value then
    ((false, "High-risk action requires approval"), g)
  else
    ((true, "Allowed"), { g with action_log := g.action_log ++ [now] })

/-! ### src/adaptive.py -/

/-- `dict.get(key, default)` on a string-keyed rational dict. -/
def pyGet (m : List (String × ℚ)) (key : String) (default : ℚ) : ℚ :=
  match m.find? (fun kv => kv.1 == key) with
  | some kv => kv.2
  | none => default

/-- `AdaptivePolicy.__init__`: `success_threshold = 0.8`. -/
def AdaptivePolicy.initialThreshold : ℚ := 8/10

/-- `AdaptivePolicy.update`: reads `success_rate` from the metrics dict
(default 0), rescales the stored threshold, and returns it. The returned
value is the new stored threshold. -/
def AdaptivePolicy.update (success_threshold : ℚ)
    (metrics : List (String × ℚ)) : ℚ :=
  let sr := pyGet metrics "success_rate" 0
  if sr < 7/10 then success_threshold * (95/100)
  else if sr > 9/10 then success_threshold * (105/100)
  else success_threshold

/-- The threshold after `k` successive `update` calls whose metrics
report the same fixed `success_rate`. -/
def AdaptivePolicy.iterate (sr : ℚ) : ℕ → ℚ
  | 0 => AdaptivePolicy.initialThreshold
  | k + 1 => AdaptivePolicy.update (AdaptivePolicy.iterate sr k)
      [("success_rate", sr)]

/-! ### Concrete inputs used by the evaluation theorems -/

/-- A draw bundle whose final outcome draw (0.9) is at or above the base
success probability 0.85, steering a fresh simulator into the failure
branch of `generate_payment`. -/
def drawsFailure : GenDraws :=
  { payment_method := "visa", issuer := "chase", processor := "stripe"
    base_latency := 500, scen := { rand := fun _ => 0, retryAmt := fun _ => 1 }
    outcome := 9/10, error_choice := "E001_INSUFFICIENT_FUNDS", noise := 0
    amount := 100, currency := "USD", merchant_category := "retail"
    risk_score := 0, now := 0 }

/-- A guardrail whose ledger holds five approvals recorded at time 0;
every entry is more than a day old at time 87000 (24 h 10 min). -/
def staleLedger : GovernanceGuardrails :=
  { max_autonomous_actions_per_hour := 5
    high_risk_actions := ["DISABLE_PAYMENT_METHOD"]
    action_log := [0, 0, 0, 0, 0] }

/-- A signal built the way the simulator builds one: `status` passed as
the enum member `PaymentStatus.SUCCESS`. -/
def sigEnumSuccess : PaymentSignal :=
  PaymentSignal.make "txn_000001" 100 "USD" (.enum .SUCCESS) 300 none 0
    (some "visa") (some "stripe") (some "chase") []

/-- A signal whose `status` was passed as the plain string "success". -/
def sigStrSuccess : PaymentSignal :=
  PaymentSignal.make "t_s" 10 "USD" (.str "success") 200 none 0
    none none none []

/-- A signal whose `status` was passed as the plain string "failure". -/
def sigStrFailure : PaymentSignal :=
  PaymentSignal.make "t_f" 10 "USD" (.str "failure")
    400 (some "E004_TIMEOUT") 0 none none none []

/-! ### Theorems for the claims -/

/-- C9: `calculate_metrics` returns `retry_rate = 0.0` on every call,
for every retained history: both the empty-history branch and the
general branch set the field to the literal 0. -/
theorem C9_retry_rate_always_zero (l : List PaymentSignal) :
    (calculate_metrics l).retry_rate = 0 := by
  by_cases h : l.length = 0 <;> simp [calculate_metrics, h]

/-- C10: `PaymentSignal.__init__` discards any extra keyword arguments:
the constructed signal is exactly the one built from the ten named
parameters alone, whatever `kwargs` holds, so no attribute is created
from the extras and construction never fails on an unknown field. -/
theorem C10_kwargs_discarded (tid : String) (amount : ℚ) (currency : String)
    (status : StatusArg) (latency : ℚ) (ec : Option String) (ts : ℚ)
    (pm pr ib : Option String) (kwargs : List (String × String)) :
    PaymentSignal.make tid amount currency status latency ec ts pm pr ib
        kwargs
      = PaymentSignal.make tid amount currency status latency ec ts pm pr ib
        [] := rfl

/-- C5 counterexample: registering a scenario with severity 2 (outside
[0,1]) and another with duration −3 does not fail — the code has no
validation and no InvalidConfiguration error — and both scenarios ARE
appended to the engine's scenario list, contradicting the claim that
such a scenario is rejected and not added. -/
theorem C5_counterexample :
    (add_degradation_scenario PaymentSimulator.new "issuer_degradation"
        "chase" 0 5 2).degradation_scenarios
      = [{ type := "issuer_degradation", affected := "chase", start := 0
           stop := 5, severity := 2 }] ∧
    (add_degradation_scenario PaymentSimulator.new "method_fatigue"
        "visa" 10 (-3) (1/2)).degradation_scenarios
      = [{ type := "method_fatigue", affected := "visa", start := 10
           stop := 7, severity := 1/2 }] := by
  constructor <;> rfl

/-- C5 amended: `add_degradation_scenario` performs no validation at
all: for every input — severity outside [0,1] and negative duration
included — it appends the scenario dict with `end = start_after +
duration` to the scenario list and leaves the counter unchanged. -/
theorem C5_amended (sim : PaymentSimulator)
    (scenario_type affected_dimension : String) (start_after duration : ℤ)
    (severity : ℚ) :
    (add_degradation_scenario sim scenario_type affected_dimension
        start_after duration severity).degradation_scenarios
      = sim.degradation_scenarios ++
        [{ type := scenario_type, affected := affected_dimension
           start := start_after, stop := start_after + duration
           severity := severity }] ∧
    (add_degradation_scenario sim scenario_type affected_dimension
        start_after duration severity).transaction_counter
      = sim.transaction_counter :=
  ⟨rfl, rfl⟩

/-- C1: on a fresh simulator (no scenarios registered) with final
outcome draw 0.9 — at or above the base success probability 0.85, so
the failure branch runs — `generate_payment` does not return a Signal:
it evaluates `PaymentStatus.FAILED`, an attribute the enum (which
defines SUCCESS, FAILURE, PENDING) does not have, and raises
`AttributeError`. -/
theorem C1_failure_branch_raises :
    generate_payment PaymentSimulator.new drawsFailure
      = Except.error "AttributeError: FAILED is not a member of PaymentStatus" := by
  have h : ¬ ((9 : ℚ)/10 < 85/100) := by norm_num
  simp only [generate_payment, drawsFailure, PaymentSimulator.new,
    applyScenarios, if_neg h]
  rfl

/-- C2: a guardrail whose five ledger entries are each 87000 seconds
old — far more than 3600, so the claim says none of them should count
and a non-high-risk call should approve — nevertheless rejects with
"Rate limit exceeded": `(now-a).seconds` is the timedelta seconds
component, 87000 mod 86400 = 600 < 3600, so every stale entry is
counted as recent. -/
theorem C2_stale_entries_still_counted :
    (allow staleLedger "ROUTE_AROUND_ISSUER" 87000).1
        = (false, "Rate limit exceeded") ∧
    staleLedger.action_log.all (fun a => 3600 < 87000 - a) = true := by
  constructor <;> decide

/-- C8: `calculate_metrics` on zero retained signals returns the
all-zero snapshot, and on any nonempty history the three divisions it
performs all use the signal count as denominator, which is nonzero — so
no division by zero occurs for any retained history. -/
theorem C8_zero_signals_all_zero :
    calculate_metrics []
      = { total_volume := 0, success_count := 0, failure_count := 0
          success_rate := 0, failure_rate := 0, avg_latency := 0
          retry_rate := 0 } ∧
    ∀ l : List PaymentSignal, l ≠ [] →
      ((l.length : ℚ) ≠ 0 ∧
       (calculate_metrics l).success_rate
         = (l.countP (fun s => s.status == "success") : ℚ) / (l.length : ℚ) ∧
       (calculate_metrics l).failure_rate
         = (l.countP (fun s => s.status == "failure") : ℚ) / (l.length : ℚ) ∧
       (calculate_metrics l).avg_latency
         = (l.map (fun s => s.latency_ms)).sum / (l.length : ℚ)) := by
  refine ⟨rfl, fun l hl => ?_⟩
  have hlen : l.length ≠ 0 := fun h => hl (List.length_eq_zero.mp h)
  refine ⟨by exact_mod_cast hlen, ?_, ?_, ?_⟩ <;>
    simp [calculate_metrics, hlen]

/-- C8 witness: the theorem applied to the empty history and to a
concrete one-signal history. -/
theorem C8_witness :
    calculate_metrics []
      = { total_volume := 0, success_count := 0, failure_count := 0
          success_rate := 0, failure_rate := 0, avg_latency := 0
          retry_rate := 0 } ∧
    (([sigStrSuccess].length : ℚ) ≠ 0 ∧
     (calculate_metrics [sigStrSuccess]).success_rate
       = ([sigStrSuccess].countP (fun s => s.status == "success") : ℚ)
           / ([sigStrSuccess].length : ℚ) ∧
     (calculate_metrics [sigStrSuccess]).failure_rate
       = ([sigStrSuccess].countP (fun s => s.status == "failure") : ℚ)
           / ([sigStrSuccess].length : ℚ) ∧
     (calculate_metrics [sigStrSuccess]).avg_latency
       = ([sigStrSuccess].map (fun s => s.latency_ms)).sum
           / ([sigStrSuccess].length : ℚ)) :=
  ⟨C8_zero_signals_all_zero.1,
   C8_zero_signals_all_zero.2 [sigStrSuccess] (by simp)⟩

/-- C4 counterexample: one signal constructed the way the simulator
constructs signals, with `status = PaymentStatus.SUCCESS`. Its stored
status string is "PaymentStatus.SUCCESS" (Python `str()` on a
`(str, Enum)` member), so it is counted as neither success nor failure
nor pending: the claimed identity `success_count + failure_count +
pendingCount = n` fails (0 ≠ 1), and `success_rate + failure_rate`
is 0, not 1, despite n = 1 > 0 with no PENDING signal. -/
theorem C4_counterexample :
    sigEnumSuccess.status = "PaymentStatus.SUCCESS" ∧
    ¬ ((calculate_metrics [sigEnumSuccess]).success_count
        + (calculate_metrics [sigEnumSuccess]).failure_count
        + pendingCount [sigEnumSuccess] = [sigEnumSuccess].length) ∧
    ¬ ((calculate_metrics [sigEnumSuccess]).success_rate
        + (calculate_metrics [sigEnumSuccess]).failure_rate = 1) := by
  have hs : (calculate_metrics [sigEnumSuccess]).success_rate = 0 := by
    simp [calculate_metrics, List.countP_cons, sigEnumSuccess,
      PaymentSignal.make, StatusArg.pyStr, PaymentStatus.memberName]
  have hf : (calculate_metrics [sigEnumSuccess]).failure_rate = 0 := by
    simp [calculate_metrics, List.countP_cons, sigEnumSuccess,
      PaymentSignal.make, StatusArg.pyStr, PaymentStatus.memberName]
  refine ⟨rfl, by decide, ?_⟩
  rw [hs, hf]
  norm_num

/-- C3: ledger/approval bookkeeping of `GovernanceGuardrails.allow`:
(1) any rejected call leaves the guardrail state unchanged, so rejected
attempts never consume quota; (2) any approved call appends exactly the
current timestamp to the ledger; (3) a DISABLE_PAYMENT_METHOD call on a
fresh guardrail (empty ledger) rejects with "High-risk action requires
approval" and leaves the state untouched; (4) a subsequent non-high-risk
call still approves, the full quota being available (the ledger it
appends to is still empty). -/
theorem C3_rejections_never_consume_quota :
    (∀ (g : GovernanceGuardrails) (a : String) (now : ℕ),
        ((allow g a now).1).1 = false → (allow g a now).2 = g) ∧
    (∀ (g : GovernanceGuardrails) (a : String) (now : ℕ),
        ((allow g a now).1).1 = true →
          (allow g a now).2
            = { g with action_log := g.action_log ++ [now] }) ∧
    (∀ now : ℕ,
        allow GovernanceGuardrails.new "DISABLE_PAYMENT_METHOD" now
          = ((false, "High-risk action requires approval"),
             GovernanceGuardrails.new)) ∧
    (∀ (now : ℕ) (a : String) (now2 : ℕ), a ≠ "DISABLE_PAYMENT_METHOD" →
        allow ((allow GovernanceGuardrails.new "DISABLE_PAYMENT_METHOD"
            now).2) a now2
          = ((true, "Allowed"),
             { GovernanceGuardrails.new with action_log := [now2] })) := by
  have hrej : ∀ now : ℕ,
      allow GovernanceGuardrails.new "DISABLE_PAYMENT_METHOD" now
        = ((false, "High-risk action requires approval"),
           GovernanceGuardrails.new) := fun _ => rfl
  refine ⟨?_, ?_, hrej, ?_⟩
  · intro g a now
    by_cases h1 : g.max_autonomous_actions_per_hour ≤
        (g.action_log.filter (fun x => withinLastHourBug now x)).length
    · intro _; simp [allow, h1]
    · by_cases h2 : a ∈ g.high_risk_actions
      · intro _; simp [allow, h1, h2]
      · intro h; simp [allow, h1, h2] at h
  · intro g a now
    by_cases h1 : g.max_autonomous_actions_per_hour ≤
        (g.action_log.filter (fun x => withinLastHourBug now x)).length
    · intro h; simp [allow, h1] at h
    · by_cases h2 : a ∈ g.high_risk_actions
      · intro h; simp [allow, h1, h2] at h
      · intro _; simp [allow, h1, h2]
  · intro now a now2 h
    rw [hrej now]
    simp [allow, GovernanceGuardrails.new, h]

/-- C3 witness: the four parts of the theorem applied to concrete
guardrail states, actions and times. -/
theorem C3_witness :
    (allow GovernanceGuardrails.new "DISABLE_PAYMENT_METHOD" 11).2
        = GovernanceGuardrails.new ∧
    (allow GovernanceGuardrails.new "ROUTE_AROUND_ISSUER" 12).2
        = { GovernanceGuardrails.new with
            action_log := GovernanceGuardrails.new.action_log ++ [12] } ∧
    allow ((allow GovernanceGuardrails.new "DISABLE_PAYMENT_METHOD"
        20).2) "ROUTE_AROUND_ISSUER" 25
      = ((true, "Allowed"),
         { GovernanceGuardrails.new with action_log := [25] }) :=
  ⟨C3_rejections_never_consume_quota.1 GovernanceGuardrails.new
      "DISABLE_PAYMENT_METHOD" 11 (by decide),
   C3_rejections_never_consume_quota.2.1 GovernanceGuardrails.new
      "ROUTE_AROUND_ISSUER" 12 (by decide),
   C3_rejections_never_consume_quota.2.2.2 20 "ROUTE_AROUND_ISSUER" 25
      (by decide)⟩

/-- Helper for C4: over signals whose stored status string is one of the
three lowercase literals, the three `countP` counts partition the
history. -/
theorem countP_status_partition (l : List PaymentSignal)
    (h : ∀ s ∈ l, s.status = "success" ∨ s.status = "failure" ∨
        s.status = "pending") :
    l.countP (fun s => s.status == "success")
      + l.countP (fun s => s.status == "failure")
      + l.countP (fun s => s.status == "pending") = l.length := by
  induction l with
  | nil => simp
  | cons a t ih =>
    have ha := h a (List.mem_cons_self a t)
    have ht := ih fun s hs => h s (List.mem_cons_of_mem a hs)
    rcases ha with ha | ha | ha <;>
      simp [List.countP_cons, ha] <;> omega

/-- C4 amended: the conservation identity holds for histories whose
stored status strings are the plain lowercase literals "success",
"failure", "pending" (as when the constructor is given plain strings):
`success_count + failure_count + pendingCount = n`, and
`success_rate + failure_rate = 1` whenever `n > 0` and no "pending"
signal is retained. (Signals constructed from `PaymentStatus` enum
members — as the Simulator does — store `"PaymentStatus.<NAME>"`
instead and are counted as none of the three, which is what breaks the
original claim.) -/
theorem C4_amended (l : List PaymentSignal)
    (h : ∀ s ∈ l, s.status = "success" ∨ s.status = "failure" ∨
        s.status = "pending") :
    (calculate_metrics l).success_count + (calculate_metrics l).failure_count
        + pendingCount l = l.length ∧
    (l ≠ [] → pendingCount l = 0 →
      (calculate_metrics l).success_rate + (calculate_metrics l).failure_rate
        = 1) := by
  have hpart := countP_status_partition l h
  constructor
  · rcases eq_or_ne l [] with rfl | hl
    · simp [calculate_metrics, pendingCount]
    · have hlen : l.length ≠ 0 := fun h0 => hl (List.length_eq_zero.mp h0)
      simpa [calculate_metrics, hlen, pendingCount] using hpart
  · intro hl hp
    have hlen : l.length ≠ 0 := fun h0 => hl (List.length_eq_zero.mp h0)
    have hp' : l.countP (fun s => s.status == "pending") = 0 := hp
    have hsum : l.countP (fun s => s.status == "success")
        + l.countP (fun s => s.status == "failure") = l.length := by
      omega
    have hq : ((l.countP (fun s => s.status == "success") : ℚ)
        + (l.countP (fun s => s.status == "failure") : ℚ))
        = (l.length : ℚ) := by exact_mod_cast congrArg (Nat.cast : ℕ → ℚ) hsum
    have hlq : (l.length : ℚ) ≠ 0 := by exact_mod_cast hlen
    simp only [calculate_metrics, hlen, if_false]
    rw [div_add_div_same, hq, div_self hlq]

/-- C4 witness: the amended identity evaluated on a concrete two-signal
history whose statuses were passed as plain strings. -/
theorem C4_witness :
    (calculate_metrics [sigStrSuccess, sigStrFailure]).success_count
        + (calculate_metrics [sigStrSuccess, sigStrFailure]).failure_count
        + pendingCount [sigStrSuccess, sigStrFailure]
      = [sigStrSuccess, sigStrFailure].length ∧
    (calculate_metrics [sigStrSuccess, sigStrFailure]).success_rate
        + (calculate_metrics [sigStrSuccess, sigStrFailure]).failure_rate
      = 1 :=
  ⟨(C4_amended [sigStrSuccess, sigStrFailure] (by decide)).1,
   (C4_amended [sigStrSuccess, sigStrFailure] (by decide)).2
      (by simp) (by decide)⟩

/-- Helper for C6: `pyGet` on a singleton metrics dict holding the key. -/
theorem pyGet_singleton (sr : ℚ) :
    pyGet [("success_rate", sr)] "success_rate" 0 = sr := rfl

/-- Helper for C6: one update at success rate 1/2 rescales by 0.95. -/
theorem update_half (st : ℚ) :
    AdaptivePolicy.update st [("success_rate", 1/2)] = st * (95/100) := by
  simp only [AdaptivePolicy.update, pyGet_singleton]
  rw [if_pos (by norm_num : (1 : ℚ)/2 < 7/10)]

/-- Helper for C6: one update at success rate 0.95 rescales by 1.05. -/
theorem update_ninetyfive (st : ℚ) :
    AdaptivePolicy.update st [("success_rate", 95/100)] = st * (105/100) := by
  simp only [AdaptivePolicy.update, pyGet_singleton]
  rw [if_neg (by norm_num : ¬ ((95 : ℚ)/100 < 7/10)),
    if_pos (by norm_num : (95 : ℚ)/100 > 9/10)]

/-- Helper for C6: closed form of the threshold under repeated updates
at success rate 1/2. -/
theorem iterate_half_closed (k : ℕ) :
    AdaptivePolicy.iterate (1/2) k = (8/10) * (95/100) ^ k := by
  induction k with
  | zero => simp [AdaptivePolicy.iterate, AdaptivePolicy.initialThreshold]
  | succ n ih =>
      rw [AdaptivePolicy.iterate, update_half, ih, pow_succ]
      ring

/-- Helper for C6: closed form of the threshold under repeated updates
at success rate 0.95. -/
theorem iterate_ninetyfive_closed (k : ℕ) :
    AdaptivePolicy.iterate (95/100) k = (8/10) * (105/100) ^ k := by
  induction k with
  | zero => simp [AdaptivePolicy.iterate, AdaptivePolicy.initialThreshold]
  | succ n ih =>
      rw [AdaptivePolicy.iterate, update_ninetyfive, ih, pow_succ]
      ring

/-- C6: the adaptive threshold starts at 0.8; `update` multiplies it by
0.95 when the reported success rate is below 0.7, by 1.05 when above
0.9, and leaves it unchanged otherwise, returning the stored value; no
clamping: repeated updates at success rate 0.5 give the strictly
decreasing sequence 0.8, 0.76, 0.722, … which falls below every
positive bound, and repeated updates at 0.95 strictly increase the
threshold beyond every bound. -/
theorem C6_threshold_drift :
    AdaptivePolicy.initialThreshold = 8/10 ∧
    (∀ (st : ℚ) (m : List (String × ℚ)), pyGet m "success_rate" 0 < 7/10 →
        AdaptivePolicy.update st m = st * (95/100)) ∧
    (∀ (st : ℚ) (m : List (String × ℚ)), 9/10 < pyGet m "success_rate" 0 →
        AdaptivePolicy.update st m = st * (105/100)) ∧
    (∀ (st : ℚ) (m : List (String × ℚ)), 7/10 ≤ pyGet m "success_rate" 0 →
        pyGet m "success_rate" 0 ≤ 9/10 → AdaptivePolicy.update st m = st) ∧
    (AdaptivePolicy.iterate (1/2) 1 = 76/100 ∧
     AdaptivePolicy.iterate (1/2) 2 = 722/1000) ∧
    (∀ k, AdaptivePolicy.iterate (1/2) (k + 1)
        < AdaptivePolicy.iterate (1/2) k) ∧
    (∀ ε : ℚ, 0 < ε → ∃ k, AdaptivePolicy.iterate (1/2) k < ε) ∧
    (∀ k, AdaptivePolicy.iterate (95/100) k
        < AdaptivePolicy.iterate (95/100) (k + 1)) ∧
    (∀ B : ℚ, ∃ k, B < AdaptivePolicy.iterate (95/100) k) := by
  refine ⟨rfl, ?_, ?_, ?_, ⟨?_, ?_⟩, ?_, ?_, ?_, ?_⟩
  · intro st m h
    simp only [AdaptivePolicy.update]
    rw [if_pos h]
  · intro st m h
    simp only [AdaptivePolicy.update]
    rw [if_neg (not_lt.mpr (le_trans (by norm_num) h.le)), if_pos h]
  · intro st m h1 h2
    simp only [AdaptivePolicy.update]
    rw [if_neg (not_lt.mpr h1), if_neg (not_lt.mpr h2)]
  · rw [iterate_half_closed]; norm_num
  · rw [iterate_half_closed]; norm_num
  · intro k
    rw [iterate_half_closed, iterate_half_closed]
    have hp : ((95 : ℚ)/100) ^ (k + 1) < (95/100) ^ k :=
      pow_lt_pow_right_of_lt_one₀ (by norm_num) (by norm_num)
        (Nat.lt_succ_self k)
    have h8 : (0 : ℚ) < 8/10 := by norm_num
    exact mul_lt_mul_of_pos_left hp h8
  · intro ε hε
    obtain ⟨n, hn⟩ := exists_pow_lt_of_lt_one
      (x := ε * (10/8)) (y := (95 : ℚ)/100) (by positivity) (by norm_num)
    refine ⟨n, ?_⟩
    rw [iterate_half_closed]
    have := mul_lt_mul_of_pos_left hn (show (0 : ℚ) < 8/10 by norm_num)
    linarith
  · intro k
    rw [iterate_ninetyfive_closed, iterate_ninetyfive_closed]
    have hp : ((105 : ℚ)/100) ^ k < (105/100) ^ (k + 1) :=
      pow_lt_pow_right₀ (by norm_num) (Nat.lt_succ_self k)
    exact mul_lt_mul_of_pos_left hp (by norm_num)
  · intro B
    obtain ⟨n, hn⟩ := pow_unbounded_of_one_lt
      (B * (10/8)) (show (1 : ℚ) < 105/100 by norm_num)
    refine ⟨n, ?_⟩
    rw [iterate_ninetyfive_closed]
    have := mul_lt_mul_of_pos_left hn (show (0 : ℚ) < 8/10 by norm_num)
    linarith

/-- C6 witness: the branch laws and both drift bounds, evaluated at
concrete thresholds, metric dicts and bounds. -/
theorem C6_witness :
    AdaptivePolicy.update (8/10) [("success_rate", 1/2)] = (8/10) * (95/100) ∧
    AdaptivePolicy.update (8/10) [("success_rate", 95/100)]
      = (8/10) * (105/100) ∧
    AdaptivePolicy.update (8/10) [("success_rate", 8/10)] = 8/10 ∧
    (∃ k, AdaptivePolicy.iterate (1/2) k < 1/1000) ∧
    (∃ k, 1000 < AdaptivePolicy.iterate (95/100) k) :=
  ⟨C6_threshold_drift.2.1 (8/10) [("success_rate", 1/2)]
      (by rw [pyGet_singleton]; norm_num),
   C6_threshold_drift.2.2.1 (8/10) [("success_rate", 95/100)]
      (by rw [pyGet_singleton]; norm_num),
   C6_threshold_drift.2.2.2.1 (8/10) [("success_rate", 8/10)]
      (by rw [pyGet_singleton]; norm_num) (by rw [pyGet_singleton]; norm_num),
   C6_threshold_drift.2.2.2.2.2.2.1 (1/1000) (by norm_num),
   C6_threshold_drift.2.2.2.2.2.2.2.2 1000⟩

/-- C7: for a signal drawn with issuer "chase" and payment method
"visa", with the counter inside both an ISSUER_DEGRADATION("chase",
0.6) window and a METHOD_FATIGUE("visa", 0.4) window, the scenario loop
of `generate_payment` (whose result's `success_prob` is exactly the
probability the final outcome draw is tested against) produces the base
probability 0.85 multiplied by (1 − 0.6) × (1 − 0.4) — in either
registration order, whatever the per-scenario random draws and base
latency are. -/
theorem C7_overlapping_scenarios_compound (s1 d1 s2 d2 : ℤ) (counter : ℕ)
    (o : ScenOracle) (B : ℤ)
    (h1 : s1 ≤ (counter : ℤ)) (h2 : (counter : ℤ) ≤ s1 + d1)
    (h3 : s2 ≤ (counter : ℤ)) (h4 : (counter : ℤ) ≤ s2 + d2) :
    (applyScenarios counter "chase" "visa" o
        ((add_degradation_scenario (add_degradation_scenario
            PaymentSimulator.new "issuer_degradation" "chase" s1 d1 (6/10))
            "method_fatigue" "visa" s2 d2 (4/10)).degradation_scenarios)
        0 { success_prob := 85/100, base_latency := B, retry_count := 0
            error_code := none }).success_prob
      = (85/100) * (1 - 6/10) * (1 - 4/10) ∧
    (applyScenarios counter "chase" "visa" o
        ((add_degradation_scenario (add_degradation_scenario
            PaymentSimulator.new "method_fatigue" "visa" s2 d2 (4/10))
            "issuer_degradation" "chase" s1 d1 (6/10)).degradation_scenarios)
        0 { success_prob := 85/100, base_latency := B, retry_count := 0
            error_code := none }).success_prob
      = (85/100) * (1 - 6/10) * (1 - 4/10) := by
  constructor <;>
    · simp [applyScenarios, applyOne, add_degradation_scenario,
        PaymentSimulator.new, h1, h2, h3, h4]
      try ring

/-- C7 witness: counter 100 inside the windows 50–150 (issuer
degradation) and 80–160 (method fatigue), with a concrete oracle. -/
theorem C7_witness :
    (applyScenarios 100 "chase" "visa"
        { rand := fun _ => 0, retryAmt := fun _ => 1 }
        ((add_degradation_scenario (add_degradation_scenario
            PaymentSimulator.new "issuer_degradation" "chase" 50 100 (6/10))
            "method_fatigue" "visa" 80 80 (4/10)).degradation_scenarios)
        0 { success_prob := 85/100, base_latency := 500, retry_count := 0
            error_code := none }).success_prob
      = (85/100) * (1 - 6/10) * (1 - 4/10) :=
  (C7_overlapping_scenarios_compound 50 100 80 80 100
      { rand := fun _ => 0, retryAmt := fun _ => 1 } 500
      (by norm_num) (by norm_num) (by norm_num) (by norm_num)).1

end SkynetCC
